import Mathlib

/-!
Verification of the catalyst-e2e preconfirming sequencer node.

Shallow embedding of the Rust sources:
  src/common/src/l2/engine.rs            (engine throttling)
  src/shasta/src/l2/extra_data.rs        (extra-data encode/decode)
  src/common/src/shared/anchor_block_info.rs
  src/shasta/src/forced_inclusion/mod.rs
  src/common/src/batch_builder/core.rs   (BatchBuilderCore)
  src/pacaya/src/node/operator/mod.rs    (Operator status machine)

Machine integers (u64/u16/u8) are modelled as Nat; where wrap-around of the
release build matters, arithmetic is taken modulo 2^64 through add64/sub64.
External, awaited calls (RPC reads, the slot clock's wall-clock reads) are
modelled as oracle inputs carried in environment structures.
-/

namespace Catalyst

/-- Decidable equality of Except results, used to evaluate the embedded
fallible operations on concrete inputs. -/
instance instDecidableEqExcept {e a : Type} [DecidableEq e] [DecidableEq a] :
    DecidableEq (Except e a)
  | .ok x, .ok y =>
    if h : x = y then .isTrue (by rw [h]) else .isFalse (by simp [h])
  | .ok _, .error _ => .isFalse (by simp)
  | .error _, .ok _ => .isFalse (by simp)
  | .error x, .error y =>
    if h : x = y then .isTrue (by rw [h]) else .isFalse (by simp [h])

/-- 2^64, the wrap-around modulus of u64 arithmetic. -/
def UINT64_LIMIT : Nat := 18446744073709551616

/-- u64 wrapping addition (release-build overflow semantics). -/
def add64 (a b : Nat) : Nat := (a + b) % UINT64_LIMIT

/-- u64 wrapping subtraction (release-build underflow semantics),
for operands below 2^64. -/
def sub64 (a b : Nat) : Nat := (a + UINT64_LIMIT - b % UINT64_LIMIT) % UINT64_LIMIT

/-! ## Engine throttling — src/common/src/l2/engine.rs -/

/-- One iteration of the throttling loop body:
size = size.saturating_sub(size / throttling_factor).
Nat subtraction agrees with saturating_sub here since size / f <= size. -/
def throttleStep (throttling_factor size : Nat) : Nat :=
  size - size / throttling_factor

/-- The loop `for _ in 0..batches_ready_to_send` applied to the starting size. -/
def throttleIter (max_bytes_per_tx_list throttling_factor : Nat) : Nat → Nat
  | 0 => max_bytes_per_tx_list
  | n + 1 => throttleStep throttling_factor (throttleIter max_bytes_per_tx_list throttling_factor n)

/-- calculate_max_bytes_per_tx_list from src/common/src/l2/engine.rs:
reduce exponentially by the factor, then size = min(max, max(size, min)). -/
def calculate_max_bytes_per_tx_list (max_bytes_per_tx_list throttling_factor
    batches_ready_to_send min_bytes_per_tx_list : Nat) : Nat :=
  min max_bytes_per_tx_list
    (max (throttleIter max_bytes_per_tx_list throttling_factor batches_ready_to_send)
      min_bytes_per_tx_list)

/-! ## Extra data — src/shasta/src/l2/extra_data.rs -/

/-- Size (in bytes) of Shasta extra data. -/
def EXTRA_DATA_LEN : Nat := 7

/-- Maximum allowed proposal ID (48 bits). -/
def MAX_PROPOSAL_ID : Nat := 0xFFFFFFFFFFFF

/-- Maximum allowed base fee sharing percentage. -/
def MAX_BASEFEE_PCTG : Nat := 100

/-- Structured representation of Shasta block header extra data.
basefee_sharing_pctg is a u8, proposal_id a u64. -/
structure ExtraData where
  basefee_sharing_pctg : Nat
  proposal_id : Nat
deriving DecidableEq, Repr

/-- ExtraData::encode. Layout (7 bytes): byte 0 the percentage, bytes 1..7
the most significant 6 bytes-slice [2..8] of the big-endian u64 proposal_id,
i.e. the big-endian low 48 bits. -/
def ExtraData.encode (e : ExtraData) : Except String (List Nat) :=
  if e.basefee_sharing_pctg > MAX_BASEFEE_PCTG then
    .error "basefee_sharing_pctg exceeds 100"
  else if e.proposal_id > MAX_PROPOSAL_ID then
    .error "proposal_id exceeds 48 bits"
  else
    .ok [e.basefee_sharing_pctg,
      e.proposal_id / 2 ^ 40 % 256,
      e.proposal_id / 2 ^ 32 % 256,
      e.proposal_id / 2 ^ 24 % 256,
      e.proposal_id / 2 ^ 16 % 256,
      e.proposal_id / 2 ^ 8 % 256,
      e.proposal_id % 256]

/-- ExtraData::decode: reject a length other than 7 or a first byte above 100;
otherwise byte 0 is the percentage and bytes 1..7 are read as the big-endian
low 48 bits of the proposal id (from_be_bytes with two leading zero bytes). -/
def ExtraData.decode (extra_data : List Nat) : Except String ExtraData :=
  match extra_data with
  | [b0, b1, b2, b3, b4, b5, b6] =>
    if b0 > MAX_BASEFEE_PCTG then
      .error "Invalid basefee_sharing_pctg"
    else
      .ok { basefee_sharing_pctg := b0,
            proposal_id :=
              b1 * 2 ^ 40 + b2 * 2 ^ 32 + b3 * 2 ^ 24 + b4 * 2 ^ 16 + b5 * 2 ^ 8 + b6 }
  | _ => .error "Invalid extra data length"

/-- Specification-side reading of a 6-byte big-endian value (used to state,
independently of encode, what the bytes 1..7 of the encoding denote). -/
def be48_value (bytes : List Nat) : Nat :=
  bytes.foldl (fun acc b => acc * 256 + b) 0

/-! ## Anchor block id — src/common/src/shared/anchor_block_info.rs -/

/-- AnchorBlockInfo::calculate_anchor_block_id, with the awaited
get_latest_block_id() result passed in as l1_height.  All arithmetic is the
source's u64 arithmetic (wrapping in a release build). -/
def calculate_anchor_block_id (l1_height l1_height_lag last_anchor_id
    min_anchor_offset : Nat) : Except String Nat :=
  let l1_height_with_lag := sub64 l1_height l1_height_lag
  let anchor_id := max l1_height_with_lag (add64 last_anchor_id 1)
  if l1_height < add64 anchor_id min_anchor_offset then
    .error "Calculated anchor block ID exceeds latest L1 height - min_anchor_offset"
  else
    .ok anchor_id

/-! ## Forced inclusion — src/shasta/src/forced_inclusion/mod.rs

The on-chain reads (queue tail, queue entry, blob fetch, manifest
decompression) and the transaction-envelope conversion are awaited external
calls; they are modelled as oracle fields of FIEnv.  fetch_blocks i stands for
the whole chain get_forced_inclusion(i) / get_bytes_from_blobs /
DerivationSourceManifest::decompress_and_decode, yielding the manifest's
blocks, each carrying its transaction envelopes. -/

/-- Oracle environment for the forced-inclusion reader. -/
structure FIEnv where
  tail : Except String Nat
  fetch_blocks : Nat → Except String (List (List Nat))
  convert_txs : List Nat → Except String (List Nat)

/-- ForcedInclusion::decode_current_forced_inclusion, as a function of the
cursor value i loaded from the atomic index.  Returns ok none at or past the
tail, propagates fetch/decode errors, rejects manifests whose block count is
not exactly one, and converts the single block's transactions. -/
def decode_current_forced_inclusion (env : FIEnv) (i : Nat) :
    Except String (Option (List Nat)) :=
  match env.tail with
  | .error e => .error e
  | .ok tail =>
    if i ≥ tail then .ok none
    else
      match env.fetch_blocks i with
      | .error e => .error e
      | .ok blocks =>
        if blocks.length ≠ 1 then
          .error "Expected exactly one block in forced inclusion manifest"
        else
          match blocks.head? with
          | some first_block =>
            match env.convert_txs first_block with
            | .error e => .error e
            | .ok txs => .ok (some txs)
          | none => .error "No blocks found in forced inclusion manifest"

/-- ForcedInclusion::consume_forced_inclusion: decode, and on a some-result
increment the cursor (AtomicU64::fetch_add, hence add64). -/
def consume_forced_inclusion (env : FIEnv) (i : Nat) :
    Except String (Option (List Nat)) × Nat :=
  match decode_current_forced_inclusion env i with
  | .ok (some txs) => (.ok (some txs), add64 i 1)
  | r => (r, i)

/-! ## Batch builder core — src/common/src/batch_builder/core.rs -/

/-- Modelled from the spec: src/common/src/shared/l2_tx_lists.rs is not in the
source tree.  PreBuiltTxList per spec section 3: { tx_list: sequence of
transactions, estimated_gas_used, bytes_length }; transactions are opaque and
carried as Nat identifiers. -/
structure PreBuiltTxList where
  tx_list : List Nat
  estimated_gas_used : Nat
  bytes_length : Nat
deriving DecidableEq, Repr

/-- Modelled from the spec: src/common/src/shared/l2_block.rs is not in the
source tree.  L2Block per spec section 3 and its uses in core.rs:
{ prebuilt_tx_list, timestamp_sec }. -/
structure L2Block where
  prebuilt_tx_list : PreBuiltTxList
  timestamp_sec : Nat
deriving DecidableEq, Repr

/-- The data every BatchLike implementor exposes
(src/common/src/batch_builder/traits.rs): the ordered L2 blocks, the running
total_bytes, and the anchor binding.  compress() is implementation-specific
and is passed to the core's operations as an explicit function. -/
structure Batch where
  l2_blocks : List L2Block
  total_bytes : Nat
  anchor_block_id : Nat
  anchor_block_timestamp_sec : Nat
deriving DecidableEq, Repr

/-- BatchBuilderConfig fields, as used by core.rs.  Modelled from the spec:
src/common/src/batch_builder/config.rs is not in the source tree; the field
list follows the literals of core.rs's tests (max_blocks_per_batch is the u16
of the u16::try_from conversion in can_consume_l2_block). -/
structure BatchBuilderConfig where
  max_bytes_size_of_batch : Nat
  max_blocks_per_batch : Nat
  l1_slot_duration_sec : Nat
  max_time_shift_between_blocks_sec : Nat
  max_anchor_height_offset : Nat
  preconf_min_txs : Nat
  preconf_max_skipped_l2_slots : Nat
deriving DecidableEq, Repr

/-- Modelled from the spec: the byte-limit check of the absent config.rs.
Spec section 4.6 demands new_bytes le byte_limit, and invariant 1 of section 8
states total_bytes le max_bytes_size_of_batch. -/
def BatchBuilderConfig.is_within_bytes_limit (c : BatchBuilderConfig) (bytes : Nat) : Bool :=
  bytes ≤ c.max_bytes_size_of_batch

/-- Modelled from the spec: the block-limit check of the absent config.rs.
Spec section 4.6 demands new_count le block_limit, and invariant 1 of
section 8 states the block count is at most max_blocks_per_batch. -/
def BatchBuilderConfig.is_within_block_limit (c : BatchBuilderConfig) (count : Nat) : Bool :=
  count ≤ c.max_blocks_per_batch

/-- BatchBuilderCore state.  F is the forced-inclusion payload type.  The
slot-clock and metrics handles are external components and carry no state
relevant to the embedded operations. -/
structure BatchBuilderCore (F : Type) where
  current_batch : Option Batch
  current_forced_inclusion : Option F
  batches_to_send : List (Option F × Batch)
  config : BatchBuilderConfig
  last_l2_block_timestamp : Nat
deriving DecidableEq, Repr

variable {F : Type}

/-- BatchBuilderCore::is_time_shift_expired: with an open batch holding at
least one block, current_l2_slot_timestamp - last_block.timestamp_sec (u64
wrapping subtraction) compared against max_time_shift_between_blocks_sec. -/
def BatchBuilderCore.is_time_shift_expired (core : BatchBuilderCore F)
    (current_l2_slot_timestamp : Nat) : Bool :=
  match core.current_batch with
  | some batch =>
    match batch.l2_blocks.getLast? with
    | some last_block =>
      sub64 current_l2_slot_timestamp last_block.timestamp_sec >
        core.config.max_time_shift_between_blocks_sec
    | none => false
  | none => false

/-- BatchBuilderCore::is_the_last_l1_slot_to_add_an_empty_l2_block:
current_l2_slot_timestamp - last_block_timestamp >=
max_time_shift_between_blocks_sec - l1_slot_duration_sec, in u64 wrapping
arithmetic. -/
def BatchBuilderCore.is_the_last_l1_slot_to_add_an_empty_l2_block
    (core : BatchBuilderCore F) (current_l2_slot_timestamp last_block_timestamp : Nat) : Bool :=
  sub64 current_l2_slot_timestamp last_block_timestamp ≥
    sub64 core.config.max_time_shift_between_blocks_sec core.config.l1_slot_duration_sec

/-- BatchBuilderCore::can_consume_l2_block.  Mutation of self is made explicit:
the result pairs the returned Bool with the post-call state.  The first
compression stage rewrites the stored batch in place; the second stage works
on a clone (the clone of the already-compressed batch with the candidate
appended) and does not touch the stored state. -/
def BatchBuilderCore.can_consume_l2_block (compress : Batch → Batch)
    (core : BatchBuilderCore F) (l2_block : L2Block) : Bool × BatchBuilderCore F :=
  let is_time_shift_expired := core.is_time_shift_expired l2_block.timestamp_sec
  match core.current_batch with
  | none => (false, core)
  | some batch =>
    -- u16::try_from(batch.l2_blocks().len() + 1) fails above u16::MAX
    if batch.l2_blocks.length + 1 > 65535 then (false, core)
    else
      let new_block_count := batch.l2_blocks.length + 1
      let new_total_bytes := add64 batch.total_bytes l2_block.prebuilt_tx_list.bytes_length
      if core.config.is_within_bytes_limit new_total_bytes then
        (core.config.is_within_bytes_limit new_total_bytes &&
          core.config.is_within_block_limit new_block_count &&
          !is_time_shift_expired, core)
      else
        -- first compression, compressing the batch without the new L2 block
        let batch1 := compress batch
        let new_total_bytes1 := add64 batch1.total_bytes l2_block.prebuilt_tx_list.bytes_length
        let core1 : BatchBuilderCore F := { core with current_batch := some batch1 }
        if core.config.is_within_bytes_limit new_total_bytes1 then
          (core.config.is_within_bytes_limit new_total_bytes1 &&
            core.config.is_within_block_limit new_block_count &&
            !is_time_shift_expired, core1)
        else
          -- second compression, on a clone with the new L2 block appended
          let batch_clone := compress { batch1 with l2_blocks := batch1.l2_blocks ++ [l2_block] }
          let new_total_bytes2 := batch_clone.total_bytes
          (core.config.is_within_bytes_limit new_total_bytes2 &&
            core.config.is_within_block_limit new_block_count &&
            !is_time_shift_expired, core1)

/-- The byte projection the claim describes: total bytes plus the candidate's
bytes, recomputed after at most two compression stages (first the stored batch
alone, then a clone with the candidate appended). -/
def projected_total_bytes (compress : Batch → Batch) (config : BatchBuilderConfig)
    (batch : Batch) (l2_block : L2Block) : Nat :=
  let t0 := add64 batch.total_bytes l2_block.prebuilt_tx_list.bytes_length
  if config.is_within_bytes_limit t0 then t0
  else
    let batch1 := compress batch
    let t1 := add64 batch1.total_bytes l2_block.prebuilt_tx_list.bytes_length
    if config.is_within_bytes_limit t1 then t1
    else (compress { batch1 with l2_blocks := batch1.l2_blocks ++ [l2_block] }).total_bytes

/-- BatchBuilderCore::add_l2_block: with an open batch, add the block's bytes
to total_bytes, set last_l2_block_timestamp, and push the block; without one,
fail. -/
def BatchBuilderCore.add_l2_block (core : BatchBuilderCore F) (l2_block : L2Block) :
    Except String (BatchBuilderCore F) :=
  match core.current_batch with
  | some current_batch =>
    .ok { core with
      current_batch := some { current_batch with
        total_bytes := add64 current_batch.total_bytes l2_block.prebuilt_tx_list.bytes_length,
        l2_blocks := current_batch.l2_blocks ++ [l2_block] },
      last_l2_block_timestamp := l2_block.timestamp_sec }
  | none => .error "No current batch while adding L2 block to batch builder core"

/-- BatchBuilderCore::remove_last_l2_block: pop the last block of the open
batch; if one was removed, subtract its bytes and, should the batch now be
empty, drop current_batch to none. -/
def BatchBuilderCore.remove_last_l2_block (core : BatchBuilderCore F) : BatchBuilderCore F :=
  match core.current_batch with
  | none => core
  | some current_proposal =>
    match current_proposal.l2_blocks.getLast? with
    | none => core
    | some removed_block =>
      let remaining := current_proposal.l2_blocks.dropLast
      if remaining.isEmpty then
        { core with current_batch := none }
      else
        { core with current_batch := some { current_proposal with
            l2_blocks := remaining,
            total_bytes := sub64 current_proposal.total_bytes
              removed_block.prebuilt_tx_list.bytes_length } }

/-! ## Fork info — src/common/src/fork_info/ -/

/-- The protocol forks, in activation order. -/
inductive Fork where
  | Pacaya
  | Shasta
  | Permissionless
deriving DecidableEq, Repr

/-- Index of a fork in the Fork::iter() order. -/
def Fork.index : Fork → Nat
  | .Pacaya => 0
  | .Shasta => 1
  | .Permissionless => 2

/-- ForkInfoConfig: the fork switch timestamps (seconds; all Durations in the
source are built with Duration::from_secs) and the transition period. -/
structure ForkInfoConfig where
  fork_switch_timestamps : List Nat
  fork_switch_transition_period : Nat
deriving DecidableEq, Repr

/-- ForkInfo: the active fork and the fork schedule. -/
structure ForkInfo where
  fork : Fork
  config : ForkInfoConfig
deriving DecidableEq, Repr

/-- ForkInfo::is_fork_switch_transition_period: current_time lies within
fork_switch_transition_period before (inclusive) the next fork's switch
timestamp.  Duration subtraction is modelled by Nat subtraction. -/
def ForkInfo.is_fork_switch_transition_period (fi : ForkInfo) (current_time : Nat) : Bool :=
  match fi.config.fork_switch_timestamps.get? (fi.fork.index + 1) with
  | some next_fork_timestamp =>
    current_time ≤ next_fork_timestamp &&
      current_time ≥ next_fork_timestamp - fi.config.fork_switch_transition_period
  | none => false

/-! ## Operator status machine — src/pacaya/src/node/operator/mod.rs

Every awaited external read (execution-layer RPCs, the driver status call and
the wall-clock-based slot-clock queries) is an oracle field of OperatorEnv.
Addresses and hashes are opaque and carried as Nat. -/

/-- Modelled from the spec: the driver status payload (the taiko_driver models
module is not in the source tree).  Spec section 4.4: status returns
{ highest_unsafe_l2_payload_block_id, end_of_sequencing_block_hash }. -/
structure TaikoStatus where
  highest_unsafe_l2_payload_block_id : Nat
  end_of_sequencing_block_hash : Nat
deriving DecidableEq, Repr

/-- The SlotData values of the current L2 slot
(src/common/src/shared/l2_slot_info.rs). -/
structure L2SlotInfo where
  slot_timestamp : Nat
  parent_id : Nat
  parent_hash : Nat
deriving DecidableEq, Repr

/-- The operator lookup's error type (src/pacaya/src/l1): either the
check-too-early condition handled gracefully, or an opaque failure. -/
inductive OperatorLookupError where
  | tooEarly
  | any (msg : String)
deriving DecidableEq, Repr

/-- Oracle environment for one Operator::get_status tick: results of the
awaited calls and of the slot clock's wall-clock reads. -/
structure OperatorEnv where
  router_specified : Except String Bool
  current_slot_of_epoch : Except String Nat
  current_epoch : Except String Nat
  epoch_begin_timestamp : Except String Nat
  operators_lookup : Except OperatorLookupError (Nat × Nat)
  preconfer_address : Nat
  handover_window_slots_from_router : Except String Nat
  driver_status : Except String TaikoStatus
  inbox_height : Except String Nat
  slot_in_last_n : Nat → Nat → Bool
  time_from_n_last_slots_ms : Nat → Nat → Except String Nat
  current_l2_slot_within_l1 : Except String Nat
  number_of_l2_slots_per_l1 : Nat
  slots_per_epoch : Nat
  l2_slots_per_epoch : Nat

/-- The Operator's mutable fields (the external handles carry no embedded
state). -/
structure OperatorState where
  handover_window_slots_default : Nat
  handover_window_slots : Nat
  handover_start_buffer_ms : Nat
  next_operator : Bool
  continuing_role : Bool
  simulate_not_submitting_at_the_end_of_epoch : Bool
  was_synced_preconfer : Bool
  cancel_counter : Nat
  last_config_reload_epoch : Nat
  fork_info : ForkInfo
  current_operator_address : Nat
deriving DecidableEq, Repr

/-- The Status produced each tick (src/pacaya/src/node/operator/status.rs). -/
structure Status where
  preconfer : Bool
  submitter : Bool
  preconfirmation_started : Bool
  end_of_sequencing : Bool
  is_driver_synced : Bool
deriving DecidableEq, Repr

/-- Operator::reset. -/
def OperatorState.reset (st : OperatorState) : OperatorState :=
  { st with next_operator := false, continuing_role := false,
            was_synced_preconfer := false, cancel_counter := 0 }

/-- Operator::get_handover_window_slots: the router config, falling back to
the default on error. -/
def get_handover_window_slots (st : OperatorState) (env : OperatorEnv) : Nat :=
  match env.handover_window_slots_from_router with
  | .ok router_config => router_config
  | .error _ => st.handover_window_slots_default

/-- Operator::is_current_operator: look up current and next operator for the
epoch, record the addresses and the continuing role; on OperatorCheckTooEarly
fall back to the cached next_operator flag. -/
def is_current_operator (st : OperatorState) (env : OperatorEnv) :
    Except String (Bool × OperatorState) :=
  match env.epoch_begin_timestamp with
  | .error e => .error e
  | .ok _ =>
    match env.operators_lookup with
    | .ok (current_operator_address, next_operator_address) =>
      let current_operator := current_operator_address == env.preconfer_address
      let next_operator := next_operator_address == env.preconfer_address
      .ok (current_operator,
        { st with
          current_operator_address := current_operator_address,
          next_operator := next_operator,
          continuing_role := current_operator && next_operator })
    | .error .tooEarly => .ok (st.next_operator, st)
    | .error (.any e) => .error ("Failed to check current epoch operator: " ++ e)

/-- Operator::is_taiko_geth_synced_with_l1: parent_id at least the taiko
inbox height. -/
def is_taiko_geth_synced_with_l1 (env : OperatorEnv) (l2_slot_info : L2SlotInfo) :
    Except String Bool :=
  match env.inbox_height with
  | .error e => .error e
  | .ok taiko_inbox_height => .ok (l2_slot_info.parent_id ≥ taiko_inbox_height)

/-- Operator::is_block_height_synced_between_taiko_geth_and_the_driver:
trivially true while the driver reports 0, otherwise equality of the taiko
geth height (parent_id) with highest_unsafe_l2_payload_block_id. -/
def is_block_height_synced_between_taiko_geth_and_the_driver
    (status : TaikoStatus) (l2_slot_info : L2SlotInfo) : Bool :=
  if status.highest_unsafe_l2_payload_block_id == 0 then true
  else l2_slot_info.parent_id == status.highest_unsafe_l2_payload_block_id

/-- Operator::is_driver_synced: both checks must pass; on success the cancel
counter resets, otherwise it increments (the cancellation side effect is
external). -/
def is_driver_synced (st : OperatorState) (env : OperatorEnv)
    (l2_slot_info : L2SlotInfo) (driver_status : TaikoStatus) :
    Except String (Bool × OperatorState) :=
  match is_taiko_geth_synced_with_l1 env l2_slot_info with
  | .error e => .error e
  | .ok taiko_geth_synced_with_l1 =>
    if taiko_geth_synced_with_l1 &&
        is_block_height_synced_between_taiko_geth_and_the_driver driver_status l2_slot_info then
      .ok (true, { st with cancel_counter := 0 })
    else
      .ok (false, { st with cancel_counter := st.cancel_counter + 1 })

/-- Operator::end_of_sequencing_marker_received: our parent hash equals the
driver's end_of_sequencing_block_hash. -/
def end_of_sequencing_marker_received (driver_status : TaikoStatus)
    (l2_slot_info : L2SlotInfo) : Bool :=
  l2_slot_info.parent_hash == driver_status.end_of_sequencing_block_hash

/-- Operator::is_handover_buffer: within handover_start_buffer_ms of the
window start and the end-of-sequencing marker not yet received. -/
def is_handover_buffer (st : OperatorState) (env : OperatorEnv) (l1_slot : Nat)
    (l2_slot_info : L2SlotInfo) (driver_status : TaikoStatus) : Except String Bool :=
  match env.time_from_n_last_slots_ms l1_slot st.handover_window_slots with
  | .error e => .error e
  | .ok ms_from_start =>
    if ms_from_start ≤ st.handover_start_buffer_ms then
      .ok (!end_of_sequencing_marker_received driver_status l2_slot_info)
    else
      .ok false

/-- Operator::is_preconfer: forced to false inside the fork-switch transition
window; inside the handover window, the next operator modulo the handover
buffer; outside, the current operator. -/
def is_preconfer (st : OperatorState) (env : OperatorEnv)
    (current_operator handover_window : Bool) (l1_slot : Nat)
    (l2_slot_info : L2SlotInfo) (driver_status : TaikoStatus) : Except String Bool :=
  if st.fork_info.is_fork_switch_transition_period l2_slot_info.slot_timestamp then
    .ok false
  else if handover_window then
    -- next_operator && (was_synced_preconfer || !is_handover_buffer(..)?)
    -- with Rust's short-circuit evaluation: the buffer check (and its error)
    -- is only reached when next_operator holds and was_synced_preconfer fails
    if !st.next_operator then .ok false
    else if st.was_synced_preconfer then .ok true
    else
      match is_handover_buffer st env l1_slot l2_slot_info driver_status with
      | .error e => .error e
      | .ok buffer => .ok !buffer
  else
    .ok current_operator

/-- Operator::is_submitter. -/
def is_submitter (st : OperatorState) (current_operator handover_window : Bool) : Bool :=
  if handover_window && st.simulate_not_submitting_at_the_end_of_epoch then false
  else current_operator

/-- Operator::is_preconfirmation_start_l2_slot (the rising edge). -/
def is_preconfirmation_start_l2_slot (st : OperatorState)
    (preconfer driver_synced : Bool) : Bool :=
  !st.was_synced_preconfer && preconfer && driver_synced

/-- Operator::is_l2_slot_before_handover_window: the last L2 sub-slot of the
L1 slot right before the handover window. -/
def is_l2_slot_before_handover_window (st : OperatorState) (env : OperatorEnv)
    (l1_slot : Nat) : Except String Bool :=
  let end_l1_slot := env.slots_per_epoch - st.handover_window_slots - 1
  if l1_slot == end_l1_slot then
    match env.current_l2_slot_within_l1 with
    | .error e => .error e
    | .ok l2_slot => .ok (l2_slot + 1 == env.number_of_l2_slots_per_l1)
  else
    .ok false

/-- Operator::is_end_of_sequencing. -/
def is_end_of_sequencing (st : OperatorState) (env : OperatorEnv)
    (preconfer submitter : Bool) (l1_slot : Nat) : Except String Bool :=
  match is_l2_slot_before_handover_window st env l1_slot with
  | .error e => .error e
  | .ok slot_before_handover_window =>
    .ok (!st.continuing_role && preconfer && submitter && slot_before_handover_window)

/-- The per-epoch router-config reload at the top of get_status. -/
def reload_config (st : OperatorState) (env : OperatorEnv) (epoch : Nat) : OperatorState :=
  if epoch > st.last_config_reload_epoch then
    { st with handover_window_slots := get_handover_window_slots st env,
              last_config_reload_epoch := epoch }
  else st

/-- The two was_synced_preconfer updates of get_status: set on the rising
edge, cleared whenever the node is not the preconfer. -/
def update_was_synced (st : OperatorState) (preconfirmation_started preconfer : Bool) :
    OperatorState :=
  if !preconfer then
    { (if preconfirmation_started then { st with was_synced_preconfer := true } else st) with
      was_synced_preconfer := false }
  else
    if preconfirmation_started then { st with was_synced_preconfer := true } else st

/-- Operator::get_status: the per-tick status computation, with the state
threading of the source made explicit (the source's let bindings appear as
the named helpers reload_config and update_was_synced, and the expressions
bound once in the source are written out at each use).  slot_in_last_n is the
slot clock's is_slot_in_last_n_slots_of_epoch (the handover-window test). -/
def get_status (env : OperatorEnv) (st : OperatorState) (l2_slot_info : L2SlotInfo) :
    Except String (Status × OperatorState) :=
  match env.router_specified with
  | .error e => .error e
  | .ok false => .ok (⟨false, false, false, false, false⟩, st.reset)
  | .ok true =>
    match env.current_slot_of_epoch with
    | .error e => .error e
    | .ok l1_slot =>
      match env.current_epoch with
      | .error e => .error e
      | .ok epoch =>
        match is_current_operator (reload_config st env epoch) env with
        | .error e => .error e
        | .ok (current_operator, st2) =>
          match env.driver_status with
          | .error e => .error e
          | .ok driver_status =>
            match is_driver_synced st2 env l2_slot_info driver_status with
            | .error e => .error e
            | .ok (driver_synced, st3) =>
              match is_preconfer st3 env current_operator
                  (env.slot_in_last_n l1_slot st2.handover_window_slots) l1_slot
                  l2_slot_info driver_status with
              | .error e => .error e
              | .ok preconfer =>
                match is_end_of_sequencing
                    (update_was_synced st3
                      (is_preconfirmation_start_l2_slot st3 preconfer driver_synced)
                      preconfer)
                    env preconfer
                    (is_submitter
                      (update_was_synced st3
                        (is_preconfirmation_start_l2_slot st3 preconfer driver_synced)
                        preconfer)
                      current_operator
                      (env.slot_in_last_n l1_slot st2.handover_window_slots))
                    l1_slot with
                | .error e => .error e
                | .ok end_of_sequencing =>
                  .ok (⟨preconfer,
                        is_submitter
                          (update_was_synced st3
                            (is_preconfirmation_start_l2_slot st3 preconfer driver_synced)
                            preconfer)
                          current_operator
                          (env.slot_in_last_n l1_slot st2.handover_window_slots),
                        is_preconfirmation_start_l2_slot st3 preconfer driver_synced,
                        end_of_sequencing, driver_synced⟩,
                       update_was_synced st3
                         (is_preconfirmation_start_l2_slot st3 preconfer driver_synced)
                         preconfer)

/-! ## Concrete instances used to evaluate the definitions -/

/-- The batch-builder configuration of core.rs's own tests: batch byte limit
1000, block limit 10, L1 slot 12 s, max time shift 255 s. -/
def sampleConfig255 : BatchBuilderConfig :=
  { max_bytes_size_of_batch := 1000, max_blocks_per_batch := 10,
    l1_slot_duration_sec := 12, max_time_shift_between_blocks_sec := 255,
    max_anchor_height_offset := 10, preconf_min_txs := 5,
    preconf_max_skipped_l2_slots := 3 }

/-- An empty builder over that configuration. -/
def sampleCore255 : BatchBuilderCore Nat :=
  { current_batch := none, current_forced_inclusion := none, batches_to_send := [],
    config := sampleConfig255, last_l2_block_timestamp := 0 }

/-- An empty transaction list of a given byte length. -/
def emptyTxList (bytes : Nat) : PreBuiltTxList :=
  { tx_list := [], estimated_gas_used := 0, bytes_length := bytes }

/-- A batch holding a single empty block timestamped 10. -/
def sampleBatchTs10 : Batch :=
  { l2_blocks := [{ prebuilt_tx_list := emptyTxList 0, timestamp_sec := 10 }],
    total_bytes := 0, anchor_block_id := 0, anchor_block_timestamp_sec := 0 }

/-- A builder whose open batch is sampleBatchTs10. -/
def sampleCoreTs10 : BatchBuilderCore Nat :=
  { sampleCore255 with current_batch := some sampleBatchTs10 }

/-- A candidate block timestamped 5, earlier than sampleBatchTs10's block. -/
def sampleBlockTs5 : L2Block :=
  { prebuilt_tx_list := emptyTxList 0, timestamp_sec := 5 }

/-- An empty candidate block timestamped 12, later than sampleBatchTs10's
block. -/
def sampleBlockTs12 : L2Block :=
  { prebuilt_tx_list := emptyTxList 0, timestamp_sec := 12 }

/-- A batch with one 5-byte block timestamped 3. -/
def sampleBatchTs3 : Batch :=
  { l2_blocks := [{ prebuilt_tx_list := emptyTxList 5, timestamp_sec := 3 }],
    total_bytes := 5, anchor_block_id := 0, anchor_block_timestamp_sec := 0 }

/-- A builder whose open batch is sampleBatchTs3 and whose
last_l2_block_timestamp is 3. -/
def sampleCoreTs3 : BatchBuilderCore Nat :=
  { sampleCore255 with current_batch := some sampleBatchTs3, last_l2_block_timestamp := 3 }

/-- A 2-byte candidate block timestamped 9. -/
def sampleBlockTs9 : L2Block :=
  { prebuilt_tx_list := emptyTxList 2, timestamp_sec := 9 }

/-- A configuration with byte limit 300 and block limit 1. -/
def sampleConfigTight : BatchBuilderConfig :=
  { sampleConfig255 with max_bytes_size_of_batch := 300, max_blocks_per_batch := 1 }

/-- A batch of one empty block whose recorded total_bytes is 500, over the
tight configuration's 300-byte limit. -/
def sampleBatch500 : Batch :=
  { l2_blocks := [{ prebuilt_tx_list := emptyTxList 0, timestamp_sec := 0 }],
    total_bytes := 500, anchor_block_id := 0, anchor_block_timestamp_sec := 0 }

/-- A builder over the tight configuration holding sampleBatch500. -/
def sampleCore500 : BatchBuilderCore Nat :=
  { current_batch := some sampleBatch500, current_forced_inclusion := none,
    batches_to_send := [], config := sampleConfigTight, last_l2_block_timestamp := 0 }

/-- An empty candidate block timestamped 0. -/
def sampleBlockTs0 : L2Block :=
  { prebuilt_tx_list := emptyTxList 0, timestamp_sec := 0 }

/-- A compression function that records a 100-byte compressed size. -/
def compressTo100 : Batch → Batch := fun b => { b with total_bytes := 100 }

/-- A forced-inclusion oracle: queue tail 5, every entry a one-block manifest
whose transactions convert successfully. -/
def sampleFIEnv : FIEnv :=
  { tail := .ok 5, fetch_blocks := fun _ => .ok [[1, 2]],
    convert_txs := fun txs => .ok txs }

/-- The default fork schedule (ForkInfoConfig::default). -/
def sampleForkInfo : ForkInfo :=
  { fork := .Pacaya,
    config := { fork_switch_timestamps := [0, 99999999999, 99999999999],
                fork_switch_transition_period := 15 } }

/-- An operator state with no cached roles. -/
def sampleOperatorState : OperatorState :=
  { handover_window_slots_default := 4, handover_window_slots := 4,
    handover_start_buffer_ms := 1000, next_operator := false,
    continuing_role := false, simulate_not_submitting_at_the_end_of_epoch := false,
    was_synced_preconfer := false, cancel_counter := 0,
    last_config_reload_epoch := 0, fork_info := sampleForkInfo,
    current_operator_address := 0 }

/-- A driver status reporting highest_unsafe_l2_payload_block_id = 0. -/
def sampleDriverStatus0 : TaikoStatus :=
  { highest_unsafe_l2_payload_block_id := 0, end_of_sequencing_block_hash := 0 }

/-- L2 slot info whose parent block id is 5. -/
def sampleSlotInfo5 : L2SlotInfo :=
  { slot_timestamp := 0, parent_id := 5, parent_hash := 0 }

/-- An operator-tick oracle: the preconf router is not specified, the taiko
inbox height is 0, and every other read succeeds benignly. -/
def sampleOpEnv : OperatorEnv :=
  { router_specified := .ok false, current_slot_of_epoch := .ok 0,
    current_epoch := .ok 0, epoch_begin_timestamp := .ok 0,
    operators_lookup := .error .tooEarly, preconfer_address := 0,
    handover_window_slots_from_router := .error "no router config",
    driver_status := .ok sampleDriverStatus0, inbox_height := .ok 0,
    slot_in_last_n := fun _ _ => false,
    time_from_n_last_slots_ms := fun _ _ => .ok 0,
    current_l2_slot_within_l1 := .ok 0, number_of_l2_slots_per_l1 := 25,
    slots_per_epoch := 32, l2_slots_per_epoch := 800 }

/-! # Theorems -/

set_option maxRecDepth 8000

/-- sub64 agrees with truncated subtraction on ordered, in-range operands. -/
theorem sub64_of_le {a b : Nat} (hba : b ≤ a) (ha : a < UINT64_LIMIT) :
    sub64 a b = a - b := by
  unfold sub64 UINT64_LIMIT at *
  omega

/-- add64 then sub64 of the same value is the identity on in-range operands. -/
theorem add64_sub64_cancel {t b : Nat} (ht : t < UINT64_LIMIT) (hb : b < UINT64_LIMIT) :
    sub64 (add64 t b) b = t := by
  unfold sub64 add64 UINT64_LIMIT at *
  omega

/-- One more throttling round never increases the size. -/
theorem throttleIter_succ_le (m f n : Nat) :
    throttleIter m f (n + 1) ≤ throttleIter m f n :=
  Nat.sub_le _ _

/-- The throttling iteration is antitone in the round count. -/
theorem throttleIter_antitone (m f : Nat) {a b : Nat} (h : a ≤ b) :
    throttleIter m f b ≤ throttleIter m f a := by
  induction b with
  | zero => exact Nat.le_zero.mp h ▸ le_rfl
  | succ n ih =>
    rcases eq_or_lt_of_le h with rfl | hlt
    · exact le_rfl
    · exact le_trans (throttleIter_succ_le m f n) (ih (Nat.lt_succ_iff.mp hlt))

/-- C3 (amended): calculate_max_bytes_per_tx_list is non-increasing in the
number of batches ready to send, and — provided min_bytes_per_tx_list does not
exceed max_bytes_per_tx_list — bounded below by min_bytes_per_tx_list; with
max 1000, factor 10, min 100 it yields 1000, 900, 810, 729 at 0, 1, 2, 3
batches and 100 at 500 batches. -/
theorem C3_throttling_monotone_bounded :
    (∀ maxB f minB m n, 0 < f → m ≤ n →
      calculate_max_bytes_per_tx_list maxB f n minB ≤
        calculate_max_bytes_per_tx_list maxB f m minB) ∧
    (∀ maxB f minB n, 0 < f → minB ≤ maxB →
      minB ≤ calculate_max_bytes_per_tx_list maxB f n minB) ∧
    calculate_max_bytes_per_tx_list 1000 10 0 100 = 1000 ∧
    calculate_max_bytes_per_tx_list 1000 10 1 100 = 900 ∧
    calculate_max_bytes_per_tx_list 1000 10 2 100 = 810 ∧
    calculate_max_bytes_per_tx_list 1000 10 3 100 = 729 ∧
    calculate_max_bytes_per_tx_list 1000 10 500 100 = 100 := by
  refine ⟨?_, ?_, by decide, by decide, by decide, by decide, by decide⟩
  · intro maxB f minB m n _ hmn
    exact min_le_min le_rfl (max_le_max (throttleIter_antitone maxB f hmn) le_rfl)
  · intro maxB f minB n _ hmax
    exact le_min hmax (le_max_right _ _)

/-- C3 counterexample: with throttling factor 10 > 0 but
min_bytes_per_tx_list 200 above max_bytes_per_tx_list 100, the result 100 is
below min_bytes_per_tx_list, refuting the unconditional lower bound. -/
theorem C3_counterexample :
    0 < 10 ∧ calculate_max_bytes_per_tx_list 100 10 0 200 < 200 := by
  decide

/-- C3 witness: the monotonicity part applied at max 1000, factor 10,
min 100, rounds 1 ≤ 2. -/
theorem C3_witness :
    calculate_max_bytes_per_tx_list 1000 10 2 100 ≤
      calculate_max_bytes_per_tx_list 1000 10 1 100 :=
  C3_throttling_monotone_bounded.1 1000 10 100 1 2 (by decide) (by decide)

/-- Reduction of decode on a list of exactly seven bytes. -/
theorem decode_cons7 (b0 b1 b2 b3 b4 b5 b6 : Nat) :
    ExtraData.decode [b0, b1, b2, b3, b4, b5, b6] =
      if b0 > MAX_BASEFEE_PCTG then Except.error "Invalid basefee_sharing_pctg"
      else Except.ok ⟨b0, b1 * 2 ^ 40 + b2 * 2 ^ 32 + b3 * 2 ^ 24 + b4 * 2 ^ 16 + b5 * 2 ^ 8 + b6⟩ :=
  rfl

/-- C4: on basefee_sharing_pctg in [0,100] and proposal_id below 2^48, encode
yields 7 bytes — byte 0 the percentage, bytes 1..7 the big-endian low 48 bits
of proposal_id — and decode inverts it; encode fails when either field is out
of range; decode fails on any length other than 7 and on a first byte above
100. -/
theorem C4_extra_data_codec :
    ∀ e : ExtraData,
    (e.basefee_sharing_pctg ≤ 100 → e.proposal_id < 2 ^ 48 →
      ∃ bytes, e.encode = .ok bytes ∧ bytes.length = 7 ∧
        bytes.head? = some e.basefee_sharing_pctg ∧
        be48_value bytes.tail = e.proposal_id ∧
        ExtraData.decode bytes = .ok e) ∧
    (e.basefee_sharing_pctg > 100 ∨ e.proposal_id ≥ 2 ^ 48 →
      ∃ msg, e.encode = .error msg) ∧
    (∀ bytes : List Nat, bytes.length ≠ 7 →
      ∃ msg, ExtraData.decode bytes = .error msg) ∧
    (∀ b0 rest, b0 > 100 → ∃ msg, ExtraData.decode (b0 :: rest) = .error msg) := by
  intro e
  refine ⟨?_, ?_, ?_, ?_⟩
  · intro h1 h2
    have hid : e.proposal_id / 2 ^ 40 % 256 * 2 ^ 40 + e.proposal_id / 2 ^ 32 % 256 * 2 ^ 32 +
        e.proposal_id / 2 ^ 24 % 256 * 2 ^ 24 + e.proposal_id / 2 ^ 16 % 256 * 2 ^ 16 +
        e.proposal_id / 2 ^ 8 % 256 * 2 ^ 8 + e.proposal_id % 256 = e.proposal_id := by
      norm_num at h2 ⊢
      omega
    refine ⟨[e.basefee_sharing_pctg,
        e.proposal_id / 2 ^ 40 % 256, e.proposal_id / 2 ^ 32 % 256,
        e.proposal_id / 2 ^ 24 % 256, e.proposal_id / 2 ^ 16 % 256,
        e.proposal_id / 2 ^ 8 % 256, e.proposal_id % 256], ?_, rfl, rfl, ?_, ?_⟩
    · unfold ExtraData.encode
      rw [if_neg (by unfold MAX_BASEFEE_PCTG; omega),
        if_neg (by unfold MAX_PROPOSAL_ID; norm_num at h2 ⊢; omega)]
    · simp only [be48_value, List.tail, List.foldl]
      omega
    · have hlt : ¬ (e.basefee_sharing_pctg > MAX_BASEFEE_PCTG) := by
        unfold MAX_BASEFEE_PCTG
        omega
      rw [decode_cons7, if_neg hlt, hid]
  · intro h
    by_cases hp : e.basefee_sharing_pctg > 100
    · refine ⟨"basefee_sharing_pctg exceeds 100", ?_⟩
      unfold ExtraData.encode
      rw [if_pos (by unfold MAX_BASEFEE_PCTG; omega)]
    · have hpid : e.proposal_id ≥ 2 ^ 48 := by omega
      refine ⟨"proposal_id exceeds 48 bits", ?_⟩
      unfold ExtraData.encode
      rw [if_neg (by unfold MAX_BASEFEE_PCTG; omega),
        if_pos (by unfold MAX_PROPOSAL_ID; norm_num at hpid ⊢; omega)]
  · intro bytes hlen
    rcases bytes with _ | ⟨a, _ | ⟨b, _ | ⟨c, _ | ⟨d, _ | ⟨e1, _ | ⟨f1, _ | ⟨g1, _ | ⟨h1, t⟩⟩⟩⟩⟩⟩⟩⟩ <;>
      first
        | exact ⟨_, rfl⟩
        | exact absurd rfl hlen
  · intro b0 rest hb0
    have hgt : b0 > MAX_BASEFEE_PCTG := by
      unfold MAX_BASEFEE_PCTG
      omega
    rcases rest with _ | ⟨a, _ | ⟨b, _ | ⟨c, _ | ⟨d, _ | ⟨e1, _ | ⟨f1, _ | ⟨g1, t⟩⟩⟩⟩⟩⟩⟩
    · exact ⟨_, rfl⟩
    · exact ⟨_, rfl⟩
    · exact ⟨_, rfl⟩
    · exact ⟨_, rfl⟩
    · exact ⟨_, rfl⟩
    · exact ⟨_, rfl⟩
    · exact ⟨_, by rw [decode_cons7, if_pos hgt]⟩
    · exact ⟨_, rfl⟩

/-- C4 witness: the round trip at basefee_sharing_pctg 30, proposal_id 1. -/
theorem C4_witness :
    ∃ bytes, (ExtraData.mk 30 1).encode = .ok bytes ∧ bytes.length = 7 ∧
      bytes.head? = some 30 ∧ be48_value bytes.tail = 1 ∧
      ExtraData.decode bytes = .ok (ExtraData.mk 30 1) :=
  (C4_extra_data_codec ⟨30, 1⟩).1 (by decide) (by norm_num)

/-- C6 (amended): provided l1_height_lag ≤ l1_latest and the involved
quantities stay below 2^64, the anchor id is
max(last_anchor_id+1, l1_latest − l1_height_lag) and the computation succeeds
iff l1_latest ≥ id + min_anchor_offset, failing otherwise. -/
theorem C6_anchor_block_id :
    ∀ l1_height l1_height_lag last_anchor_id min_anchor_offset : Nat,
    l1_height_lag ≤ l1_height → l1_height < UINT64_LIMIT →
    last_anchor_id + 1 < UINT64_LIMIT →
    max (last_anchor_id + 1) (l1_height - l1_height_lag) + min_anchor_offset < UINT64_LIMIT →
    calculate_anchor_block_id l1_height l1_height_lag last_anchor_id min_anchor_offset =
      (if l1_height ≥ max (last_anchor_id + 1) (l1_height - l1_height_lag) + min_anchor_offset
       then .ok (max (last_anchor_id + 1) (l1_height - l1_height_lag))
       else .error "Calculated anchor block ID exceeds latest L1 height - min_anchor_offset") := by
  intro l1 lag last minoff hlag hl1 hlast hmax
  simp only [calculate_anchor_block_id]
  rw [sub64_of_le hlag hl1]
  have h2 : add64 last 1 = last + 1 := by
    unfold add64 UINT64_LIMIT at *
    omega
  rw [h2, max_comm (l1 - lag) (last + 1)]
  have h4 : add64 (max (last + 1) (l1 - lag)) minoff =
      max (last + 1) (l1 - lag) + minoff := by
    unfold add64 UINT64_LIMIT at *
    omega
  rw [h4]
  rcases lt_or_ge l1 (max (last + 1) (l1 - lag) + minoff) with h | h
  · rw [if_pos h, if_neg (by omega)]
  · rw [if_neg (by omega), if_pos h]

/-- C6 counterexample: with l1_latest = 10 and l1_height_lag = 20 the u64
subtraction wraps, so the code fails, although the claim's formula
(id = max(0+1, 10−20) = 1, success since 10 ≥ 1 + 0) predicts success. -/
theorem C6_counterexample :
    (∃ msg, calculate_anchor_block_id 10 20 0 0 = .error msg) ∧
    (10 : Int) ≥ max ((0 : Int) + 1) (10 - 20) + 0 := by
  exact ⟨⟨"Calculated anchor block ID exceeds latest L1 height - min_anchor_offset",
    by decide⟩, by decide⟩

/-- C6 witness: at l1_latest 100, lag 2, last anchor 5, min offset 1 the id
is max(6, 98) = 98 and the computation succeeds. -/
theorem C6_witness :
    calculate_anchor_block_id 100 2 5 1 =
      (if (100 : Nat) ≥ max (5 + 1) (100 - 2) + 1
       then .ok (max (5 + 1) (100 - 2))
       else .error "Calculated anchor block ID exceeds latest L1 height - min_anchor_offset") :=
  C6_anchor_block_id 100 2 5 1 (by decide) (by decide) (by decide) (by decide)

/-- C7 (amended): when last_block_timestamp ≤ current (and l1_slot_duration ≤
max_time_shift, all below 2^64), the check returns true iff
ts − last_ts ≥ max_time_shift − l1_slot_duration; at the configuration
(255, 12) with last_ts 0 it is false at 100 and 242 and true at 243 and 255. -/
theorem C7_last_slot_for_empty_block :
    (∀ (F : Type) (core : BatchBuilderCore F) (ts last_ts : Nat),
      last_ts ≤ ts → ts < UINT64_LIMIT →
      core.config.l1_slot_duration_sec ≤ core.config.max_time_shift_between_blocks_sec →
      core.config.max_time_shift_between_blocks_sec < UINT64_LIMIT →
      core.is_the_last_l1_slot_to_add_an_empty_l2_block ts last_ts =
        decide (ts - last_ts ≥
          core.config.max_time_shift_between_blocks_sec - core.config.l1_slot_duration_sec)) ∧
    sampleCore255.is_the_last_l1_slot_to_add_an_empty_l2_block 100 0 = false ∧
    sampleCore255.is_the_last_l1_slot_to_add_an_empty_l2_block 242 0 = false ∧
    sampleCore255.is_the_last_l1_slot_to_add_an_empty_l2_block 243 0 = true ∧
    sampleCore255.is_the_last_l1_slot_to_add_an_empty_l2_block 255 0 = true := by
  refine ⟨?_, by decide, by decide, by decide, by decide⟩
  intro F core ts last_ts h1 h2 h3 h4
  unfold BatchBuilderCore.is_the_last_l1_slot_to_add_an_empty_l2_block
  rw [sub64_of_le h1 h2, sub64_of_le h3 h4]

/-- C7 counterexample: at current timestamp 0 and last-block timestamp 1 the
u64 subtraction wraps and the function returns true, although
ts − last_ts = −1 is below max_time_shift − l1_slot_duration = 243. -/
theorem C7_counterexample :
    sampleCore255.is_the_last_l1_slot_to_add_an_empty_l2_block 0 1 = true ∧
    ¬((0 : Int) - 1 ≥ (255 : Int) - 12) := by
  exact ⟨by decide, by decide⟩

/-- C7 witness: the general characterization applied at timestamps 243 and 0
over the (255, 12) configuration. -/
theorem C7_witness :
    sampleCore255.is_the_last_l1_slot_to_add_an_empty_l2_block 243 0 =
      decide ((243 : Nat) - 0 ≥
        sampleCore255.config.max_time_shift_between_blocks_sec -
          sampleCore255.config.l1_slot_duration_sec) :=
  C7_last_slot_for_empty_block.1 Nat sampleCore255 243 0
    (by decide) (by decide) (by decide) (by decide)

/-- C8: consume_forced_inclusion increments the cursor by exactly one when
decoding yields a transaction list; it leaves the cursor unchanged when the
cursor has reached the on-chain queue tail (returning ok none) and when
decoding fails (returning the error unchanged). -/
theorem C8_consume_forced_inclusion_cursor :
    ∀ (env : FIEnv) (i : Nat),
    (∀ t, env.tail = .ok t → t < UINT64_LIMIT) →
    ((∀ txs, decode_current_forced_inclusion env i = .ok (some txs) →
        consume_forced_inclusion env i = (.ok (some txs), i + 1)) ∧
     (∀ t, env.tail = .ok t → i ≥ t →
        consume_forced_inclusion env i = (.ok none, i)) ∧
     (∀ e, decode_current_forced_inclusion env i = .error e →
        consume_forced_inclusion env i = (.error e, i))) := by
  intro env i htail
  refine ⟨?_, ?_, ?_⟩
  · intro txs hdec
    obtain ⟨t, ht, hit⟩ : ∃ t, env.tail = .ok t ∧ i < t := by
      have hdec' := hdec
      unfold decode_current_forced_inclusion at hdec'
      split at hdec'
      next e heq => exact absurd hdec' (by simp)
      next t heq =>
        split at hdec'
        next hge => exact absurd hdec' (by simp)
        next hge => exact ⟨t, heq, by omega⟩
    have hadd : add64 i 1 = i + 1 := by
      have := htail t ht
      unfold add64 UINT64_LIMIT at *
      omega
    simp [consume_forced_inclusion, hdec, hadd]
  · intro t ht hge
    have hdec : decode_current_forced_inclusion env i = .ok none := by
      unfold decode_current_forced_inclusion
      rw [ht]
      simp [hge]
    simp [consume_forced_inclusion, hdec]
  · intro e hdec
    simp [consume_forced_inclusion, hdec]

/-- C8 witness: over the sample oracle (tail 5, one-block manifests), consuming
at cursor 3 returns the decoded transactions and advances the cursor to 4. -/
theorem C8_witness :
    consume_forced_inclusion sampleFIEnv 3 = (.ok (some [1, 2]), 3 + 1) :=
  (C8_consume_forced_inclusion_cursor sampleFIEnv 3
    (by intro t h; simp [sampleFIEnv] at h; unfold UINT64_LIMIT; omega)).1 [1, 2] (by decide)

/-- C5 (amended): the driver_synced value is true iff the L1 inbox height is
at most the taiko-geth height (parent_id) and, in addition, either the driver
reports highest_unsafe_l2_payload_block_id = 0 or the taiko-geth height equals
that report. -/
theorem C5_driver_synced :
    ∀ (st : OperatorState) (env : OperatorEnv) (info : L2SlotInfo)
      (ds : TaikoStatus) (inbox : Nat) (b : Bool) (st' : OperatorState),
    env.inbox_height = .ok inbox →
    is_driver_synced st env info ds = .ok (b, st') →
    (b = true ↔ (inbox ≤ info.parent_id ∧
      (ds.highest_unsafe_l2_payload_block_id = 0 ∨
        info.parent_id = ds.highest_unsafe_l2_payload_block_id))) := by
  intro st env info ds inbox b st' hin hsync
  unfold is_driver_synced is_taiko_geth_synced_with_l1
    is_block_height_synced_between_taiko_geth_and_the_driver at hsync
  simp only [hin] at hsync
  split at hsync
  next h0 =>
    simp only [beq_iff_eq] at h0
    split at hsync
    next hcond =>
      simp only [Except.ok.injEq, Prod.mk.injEq] at hsync
      obtain ⟨hb, -⟩ := hsync
      subst hb
      simp only [Bool.and_true, decide_eq_true_eq, ge_iff_le] at hcond
      simp only [true_iff]
      exact ⟨hcond, Or.inl h0⟩
    next hcond =>
      simp only [Except.ok.injEq, Prod.mk.injEq] at hsync
      obtain ⟨hb, -⟩ := hsync
      subst hb
      simp only [Bool.and_true, decide_eq_true_eq, ge_iff_le] at hcond
      simp only [Bool.false_eq_true, false_iff]
      exact fun h => hcond h.1
  next h0 =>
    simp only [beq_iff_eq] at h0
    split at hsync
    next hcond =>
      simp only [Except.ok.injEq, Prod.mk.injEq] at hsync
      obtain ⟨hb, -⟩ := hsync
      subst hb
      simp only [Bool.and_eq_true, decide_eq_true_eq, beq_iff_eq, ge_iff_le] at hcond
      simp only [true_iff]
      exact ⟨hcond.1, Or.inr hcond.2⟩
    next hcond =>
      simp only [Except.ok.injEq, Prod.mk.injEq] at hsync
      obtain ⟨hb, -⟩ := hsync
      subst hb
      simp only [Bool.and_eq_true, decide_eq_true_eq, beq_iff_eq, ge_iff_le] at hcond
      simp only [Bool.false_eq_true, false_iff]
      rintro ⟨hp, h0' | heq⟩
      · exact h0 h0'
      · exact hcond ⟨hp, heq⟩

/-- C5 counterexample: with inbox height 0, taiko-geth height 5 and the driver
reporting highest_unsafe_l2_payload_block_id = 0, is_driver_synced returns
true although the taiko-geth height differs from the driver's report. -/
theorem C5_counterexample :
    is_driver_synced sampleOperatorState sampleOpEnv sampleSlotInfo5 sampleDriverStatus0 =
      .ok (true, sampleOperatorState) ∧
    ¬(sampleSlotInfo5.parent_id = sampleDriverStatus0.highest_unsafe_l2_payload_block_id) := by
  exact ⟨by decide, by decide⟩

/-- C5 witness: the amended characterization at the sample tick. -/
theorem C5_witness :
    (true = true ↔ ((0 : Nat) ≤ 5 ∧ ((0 : Nat) = 0 ∨ (5 : Nat) = 0))) :=
  C5_driver_synced sampleOperatorState sampleOpEnv sampleSlotInfo5 sampleDriverStatus0
    0 true sampleOperatorState (by decide) (by decide)

/-- C9 (amended): with an open batch, add_l2_block then remove_last_l2_block
restores the batch's block sequence and total bytes and leaves every other
field of the builder unchanged, except that last_l2_block_timestamp keeps the
appended block's timestamp and, when the open batch was empty before the
append, current_batch becomes none. -/
theorem C9_add_then_remove :
    ∀ (F : Type) (core : BatchBuilderCore F) (batch : Batch) (b : L2Block),
    core.current_batch = some batch →
    batch.total_bytes < UINT64_LIMIT →
    b.prebuilt_tx_list.bytes_length < UINT64_LIMIT →
    ∃ core1, core.add_l2_block b = .ok core1 ∧
      core1.remove_last_l2_block =
        { core with
          current_batch := if batch.l2_blocks.isEmpty then none else some batch,
          last_l2_block_timestamp := b.timestamp_sec } := by
  intro F core batch b hb ht hbl
  refine ⟨{ core with
      current_batch := some { batch with
        total_bytes := add64 batch.total_bytes b.prebuilt_tx_list.bytes_length,
        l2_blocks := batch.l2_blocks ++ [b] },
      last_l2_block_timestamp := b.timestamp_sec }, ?_, ?_⟩
  · unfold BatchBuilderCore.add_l2_block
    rw [hb]
  · unfold BatchBuilderCore.remove_last_l2_block
    simp only [List.getLast?_concat, List.dropLast_concat,
      add64_sub64_cancel ht hbl]
    by_cases hE : batch.l2_blocks.isEmpty
    · simp [hE]
    · simp [hE]

/-- C9 counterexample: appending a block timestamped 9 to the builder whose
last_l2_block_timestamp is 3 and removing it again leaves
last_l2_block_timestamp at 9, so the builder is not restored exactly. -/
theorem C9_counterexample :
    ∃ core1, sampleCoreTs3.add_l2_block sampleBlockTs9 = .ok core1 ∧
      core1.remove_last_l2_block ≠ sampleCoreTs3 ∧
      core1.remove_last_l2_block.last_l2_block_timestamp = 9 ∧
      sampleCoreTs3.last_l2_block_timestamp = 3 := by
  exact ⟨_, rfl, by decide, by decide, by decide⟩

/-- C9 witness: the amended round trip evaluated on the sample builder. -/
theorem C9_witness :
    ∃ core1, sampleCoreTs3.add_l2_block sampleBlockTs9 = .ok core1 ∧
      core1.remove_last_l2_block =
        { sampleCoreTs3 with
          current_batch :=
            if sampleBatchTs3.l2_blocks.isEmpty then none else some sampleBatchTs3,
          last_l2_block_timestamp := sampleBlockTs9.timestamp_sec } :=
  C9_add_then_remove Nat sampleCoreTs3 sampleBatchTs3 sampleBlockTs9
    (by decide) (by decide) (by decide)

/-- C1 (amended): can_consume_l2_block returns false when current_batch is
none; with an open batch, whenever no stored block is timestamped after the
candidate, it returns true iff the projected total bytes (recomputed after at
most two compression stages — the stored batch alone, then a clone with the
candidate appended) is within the byte limit, the block count plus one is
within the block limit, and the candidate's timestamp does not exceed the
last block's by more than max_time_shift_between_blocks_sec. -/
theorem C1_can_consume_l2_block :
    (∀ (F : Type) (compress : Batch → Batch) (core : BatchBuilderCore F) (b : L2Block),
      core.current_batch = none →
      (BatchBuilderCore.can_consume_l2_block compress core b).1 = false) ∧
    (∀ (F : Type) (compress : Batch → Batch) (core : BatchBuilderCore F) (b : L2Block)
       (batch : Batch),
      core.current_batch = some batch →
      core.config.max_blocks_per_batch < 65536 →
      b.timestamp_sec < UINT64_LIMIT →
      core.config.max_time_shift_between_blocks_sec < UINT64_LIMIT →
      (∀ last, batch.l2_blocks.getLast? = some last → last.timestamp_sec ≤ b.timestamp_sec) →
      (BatchBuilderCore.can_consume_l2_block compress core b).1 =
        (core.config.is_within_bytes_limit
            (projected_total_bytes compress core.config batch b) &&
         core.config.is_within_block_limit (batch.l2_blocks.length + 1) &&
         (match batch.l2_blocks.getLast? with
          | some last => decide (b.timestamp_sec - last.timestamp_sec ≤
              core.config.max_time_shift_between_blocks_sec)
          | none => true))) := by
  constructor
  · intro F compress core b h
    unfold BatchBuilderCore.can_consume_l2_block
    rw [h]
  · intro F compress core b batch hb hblk hts hmax hlast
    have hexp : core.is_time_shift_expired b.timestamp_sec =
        !(match batch.l2_blocks.getLast? with
          | some last => decide (b.timestamp_sec - last.timestamp_sec ≤
              core.config.max_time_shift_between_blocks_sec)
          | none => true) := by
      unfold BatchBuilderCore.is_time_shift_expired
      rw [hb]
      cases hl : batch.l2_blocks.getLast? with
      | none => simp [hl]
      | some last =>
        have h1 := hlast last hl
        simp only [hl]
        rw [sub64_of_le h1 hts]
        simp only [← decide_not, Nat.not_le, gt_iff_lt]
    unfold BatchBuilderCore.can_consume_l2_block
    rw [hb, hexp]
    by_cases hlen : batch.l2_blocks.length + 1 > 65535
    · have hblkF : core.config.is_within_block_limit (batch.l2_blocks.length + 1) = false := by
        unfold BatchBuilderConfig.is_within_block_limit
        simp only [decide_eq_false_iff_not]
        omega
      simp [hlen, hblkF]
    · unfold projected_total_bytes
      cases h0 : core.config.is_within_bytes_limit
          (add64 batch.total_bytes b.prebuilt_tx_list.bytes_length) with
      | true => simp [hlen, h0, Bool.not_not]
      | false =>
        cases h1 : core.config.is_within_bytes_limit
            (add64 (compress batch).total_bytes b.prebuilt_tx_list.bytes_length) with
        | true => simp [hlen, h0, h1, Bool.not_not]
        | false => simp [hlen, h0, h1, Bool.not_not]

/-- C1 counterexample: a candidate timestamped 5 against a stored block
timestamped 10 is rejected (the u64 time-shift subtraction wraps), although
the byte and block limits hold and the candidate exceeds the last block's
timestamp by at most 255 seconds as the claim reads the condition. -/
theorem C1_counterexample :
    (BatchBuilderCore.can_consume_l2_block id sampleCoreTs10 sampleBlockTs5).1 = false ∧
    (0 : Nat) ≤ 1000 ∧ 1 + 1 ≤ 10 ∧ (5 : Int) - 10 ≤ 255 := by
  exact ⟨by decide, by decide, by decide, by decide⟩

/-- C1 witness: the amended characterization at a candidate timestamped 12
appended after the block timestamped 10. -/
theorem C1_witness :
    (BatchBuilderCore.can_consume_l2_block id sampleCoreTs10 sampleBlockTs12).1 =
      (sampleCoreTs10.config.is_within_bytes_limit
          (projected_total_bytes id sampleCoreTs10.config sampleBatchTs10 sampleBlockTs12) &&
       sampleCoreTs10.config.is_within_block_limit (sampleBatchTs10.l2_blocks.length + 1) &&
       (match sampleBatchTs10.l2_blocks.getLast? with
        | some last => decide (sampleBlockTs12.timestamp_sec - last.timestamp_sec ≤
            sampleCoreTs10.config.max_time_shift_between_blocks_sec)
        | none => true)) :=
  C1_can_consume_l2_block.2 Nat id sampleCoreTs10 sampleBlockTs12 sampleBatchTs10
    (by decide) (by decide) (by decide) (by decide)
    (by intro last h; simp [sampleBatchTs10, emptyTxList] at h; subst h; decide)

/-- C10: can_consume_l2_block is not observationally pure: whenever the
projected size exceeds the byte limit (and the block count fits u16), the
stored current batch is replaced by its compression — even on a call that
returns false, as the concrete run shows — while a within-budget projection
leaves the state untouched; the second compression stage only ever affects a
clone, the stored batch stays at the first stage's result. -/
theorem C10_can_consume_frame_effect :
    (∀ (F : Type) (compress : Batch → Batch) (core : BatchBuilderCore F) (b : L2Block)
       (batch : Batch),
      core.current_batch = some batch →
      batch.l2_blocks.length + 1 ≤ 65535 →
      core.config.is_within_bytes_limit
        (add64 batch.total_bytes b.prebuilt_tx_list.bytes_length) = false →
      (BatchBuilderCore.can_consume_l2_block compress core b).2.current_batch =
        some (compress batch)) ∧
    (∀ (F : Type) (compress : Batch → Batch) (core : BatchBuilderCore F) (b : L2Block)
       (batch : Batch),
      core.current_batch = some batch →
      core.config.is_within_bytes_limit
        (add64 batch.total_bytes b.prebuilt_tx_list.bytes_length) = true →
      (BatchBuilderCore.can_consume_l2_block compress core b).2 = core) ∧
    ((BatchBuilderCore.can_consume_l2_block compressTo100 sampleCore500 sampleBlockTs0).1 =
        false ∧
     (BatchBuilderCore.can_consume_l2_block compressTo100 sampleCore500
         sampleBlockTs0).2.current_batch.map Batch.total_bytes = some 100 ∧
     sampleCore500.current_batch.map Batch.total_bytes = some 500) := by
  refine ⟨?_, ?_, by decide, by decide, by decide⟩
  · intro F compress core b batch hb hlen h0
    unfold BatchBuilderCore.can_consume_l2_block
    rw [hb]
    have hlen' : ¬(batch.l2_blocks.length + 1 > 65535) := by omega
    simp [hlen', h0]
    cases h1 : core.config.is_within_bytes_limit
        (add64 (compress batch).total_bytes b.prebuilt_tx_list.bytes_length) with
    | true => simp [h1]
    | false => simp [h1]
  · intro F compress core b batch hb h0
    unfold BatchBuilderCore.can_consume_l2_block
    rw [hb]
    by_cases hlen : batch.l2_blocks.length + 1 > 65535
    · simp [hlen]
    · simp [hlen, h0]

/-- C10 witness: the over-budget mutation evaluated on the sample builder. -/
theorem C10_witness :
    (BatchBuilderCore.can_consume_l2_block compressTo100 sampleCore500
      sampleBlockTs0).2.current_batch = some (compressTo100 sampleBatch500) :=
  C10_can_consume_frame_effect.1 Nat compressTo100 sampleCore500 sampleBlockTs0
    sampleBatch500 (by decide) (by decide) (by decide)

/-- is_current_operator never changes the fork schedule. -/
theorem is_current_operator_fork_info (st : OperatorState) (env : OperatorEnv)
    {b : Bool} {st' : OperatorState} (h : is_current_operator st env = .ok (b, st')) :
    st'.fork_info = st.fork_info := by
  unfold is_current_operator at h
  split at h
  · exact absurd h (by simp)
  · split at h
    · simp only [Except.ok.injEq, Prod.mk.injEq] at h
      obtain ⟨-, h2⟩ := h
      subst h2
      rfl
    · simp only [Except.ok.injEq, Prod.mk.injEq] at h
      obtain ⟨-, h2⟩ := h
      subst h2
      rfl
    · exact absurd h (by simp)

/-- is_driver_synced never changes the fork schedule. -/
theorem is_driver_synced_fork_info (st : OperatorState) (env : OperatorEnv)
    (info : L2SlotInfo) (ds : TaikoStatus) {b : Bool} {st' : OperatorState}
    (h : is_driver_synced st env info ds = .ok (b, st')) :
    st'.fork_info = st.fork_info := by
  unfold is_driver_synced at h
  split at h
  · exact absurd h (by simp)
  · split at h <;>
      · simp only [Except.ok.injEq, Prod.mk.injEq] at h
        obtain ⟨-, h2⟩ := h
        subst h2
        rfl

/-- Inside the fork-switch transition window is_preconfer yields false. -/
theorem is_preconfer_in_transition (st : OperatorState) (env : OperatorEnv)
    (c hw : Bool) (l1_slot : Nat) (info : L2SlotInfo) (ds : TaikoStatus)
    (hfork : st.fork_info.is_fork_switch_transition_period info.slot_timestamp = true)
    {p : Bool} (hp : is_preconfer st env c hw l1_slot info ds = .ok p) :
    p = false := by
  unfold is_preconfer at hp
  rw [if_pos hfork] at hp
  simp only [Except.ok.injEq] at hp
  exact hp.symm

/-- Whatever the slot-clock answers, is_end_of_sequencing's result is the
source's conjunction with some slot-boundary bit. -/
theorem is_end_of_sequencing_ok (st : OperatorState) (env : OperatorEnv)
    (p su : Bool) (l1_slot : Nat) {e : Bool}
    (h : is_end_of_sequencing st env p su l1_slot = .ok e) :
    ∃ sb, e = (!st.continuing_role && p && su && sb) := by
  unfold is_end_of_sequencing at h
  split at h
  · exact absurd h (by simp)
  next sb hsb =>
    simp only [Except.ok.injEq] at h
    exact ⟨sb, h.symm⟩

/-- C2: every Status produced by get_status satisfies the role constraints:
preconfirmation_started implies preconfer and driver_synced;
end_of_sequencing implies preconfer and submitter; and inside the fork-switch
transition window preconfer is false. -/
theorem C2_status_invariants :
    ∀ (env : OperatorEnv) (st : OperatorState) (info : L2SlotInfo) (s : Status)
      (st' : OperatorState),
    get_status env st info = .ok (s, st') →
    ((s.preconfirmation_started = true → s.preconfer = true ∧ s.is_driver_synced = true) ∧
     (s.end_of_sequencing = true → s.preconfer = true ∧ s.submitter = true) ∧
     (st.fork_info.is_fork_switch_transition_period info.slot_timestamp = true →
       s.preconfer = false)) := by
  intro env st info s st' h
  unfold get_status at h
  split at h
  · exact absurd h (by simp)
  · -- preconf router not specified: all-false status
    simp only [Except.ok.injEq, Prod.mk.injEq] at h
    obtain ⟨hs, -⟩ := h
    subst hs
    refine ⟨fun h' => ?_, fun h' => ?_, fun _ => rfl⟩ <;> simp at h'
  · split at h
    · exact absurd h (by simp)
    next l1_slot =>
      split at h
      · exact absurd h (by simp)
      next epoch =>
        split at h
        · exact absurd h (by simp)
        next current_operator st2 hco =>
          split at h
          · exact absurd h (by simp)
          next driver_status hds =>
            split at h
            · exact absurd h (by simp)
            next driver_synced st3 hsync =>
              split at h
              · exact absurd h (by simp)
              next preconfer hpre =>
                split at h
                · exact absurd h (by simp)
                next end_of_sequencing heos =>
                  simp only [Except.ok.injEq, Prod.mk.injEq] at h
                  obtain ⟨hs, -⟩ := h
                  subst hs
                  refine ⟨?_, ?_, ?_⟩
                  · intro hstart
                    simp only [is_preconfirmation_start_l2_slot,
                      Bool.and_eq_true] at hstart
                    exact ⟨hstart.1.2, hstart.2⟩
                  · intro heot
                    obtain ⟨sb, hsb⟩ := is_end_of_sequencing_ok _ _ _ _ _ heos
                    rw [hsb] at heot
                    simp only [Bool.and_eq_true] at heot
                    exact ⟨heot.1.1.2, heot.1.2⟩
                  · intro hfork
                    have h3 : st3.fork_info = st.fork_info := by
                      rw [is_driver_synced_fork_info _ _ _ _ hsync,
                        is_current_operator_fork_info _ _ hco]
                      unfold reload_config
                      split <;> rfl
                    exact is_preconfer_in_transition st3 env _ _ _ _ _
                      (by rw [h3]; exact hfork) hpre

/-- C2 witness: the invariants at a tick whose router is not specified. -/
theorem C2_witness :
    ((Status.mk false false false false false).preconfirmation_started = true →
      (Status.mk false false false false false).preconfer = true ∧
      (Status.mk false false false false false).is_driver_synced = true) ∧
    ((Status.mk false false false false false).end_of_sequencing = true →
      (Status.mk false false false false false).preconfer = true ∧
      (Status.mk false false false false false).submitter = true) ∧
    (sampleOperatorState.fork_info.is_fork_switch_transition_period
        sampleSlotInfo5.slot_timestamp = true →
      (Status.mk false false false false false).preconfer = false) :=
  C2_status_invariants sampleOpEnv sampleOperatorState sampleSlotInfo5
    (Status.mk false false false false false) sampleOperatorState.reset (by decide)

end Catalyst
